import Mathlib

/-
Shallow embedding of the MAX7219 daisy-chain LED driver
(src/src/driver/max7219.rs).

The driver state is the transmit buffer (a list of bytes, modelled as
Nat values, of capacity MAX_DISPLAYS * 2) together with the configured
device count.  The SPI transport is modelled as a log: each operation
returns, besides the successor state, the list of frames (byte lists)
it transmitted, in order.  Transport failures are not modelled (the
claims under study concern validation errors and frame contents only),
so the error type carries exactly the validation error kinds.
-/

namespace Max7219Spec

/-- Modelled from the spec: the constant `MAX_DISPLAYS` lives in the crate
root, which is not under src/.  The spec fixes only that it is the maximum
supported chain length and that the buffer capacity is
`max_chain_length * 2` bytes; the concrete value 8 is the usual maximum
for this chip family and no claim depends on the particular number. -/
def MAX_DISPLAYS : Nat := 8

/-- Modelled from the spec: the constant `NUM_DIGITS` (the fixed digit
count per device) lives in the crate root, which is not under src/.
The spec states it is 8. -/
def NUM_DIGITS : Nat := 8

/-- Modelled from the spec: the `Register` enumeration lives in the
`registers` module, which is not under src/.  The spec describes a closed
set of named registers — eight contiguous digit registers plus Shutdown,
DisplayTest, DecodeMode, ScanLimit, Intensity and NoOp — each mapped to a
fixed one-byte address. -/
inductive Register where
  | NoOp
  | Digit0
  | Digit1
  | Digit2
  | Digit3
  | Digit4
  | Digit5
  | Digit6
  | Digit7
  | DecodeMode
  | Intensity
  | ScanLimit
  | Shutdown
  | DisplayTest
deriving DecidableEq

/-- Modelled from the spec: the one-byte address of each register
(`register as u8` in the source).  Digit addresses are distinct and
contiguous (0x01 .. 0x08) and NoOp is the inert address 0x00, as the
spec's no-op invariant and the crate's tests require. -/
def Register.addr : Register → Nat
  | .NoOp => 0x00
  | .Digit0 => 0x01
  | .Digit1 => 0x02
  | .Digit2 => 0x03
  | .Digit3 => 0x04
  | .Digit4 => 0x05
  | .Digit5 => 0x06
  | .Digit6 => 0x07
  | .Digit7 => 0x08
  | .DecodeMode => 0x09
  | .Intensity => 0x0A
  | .ScanLimit => 0x0B
  | .Shutdown => 0x0C
  | .DisplayTest => 0x0F

/-- Modelled from the spec: `Register::digits()` (registers module, not
under src/) produces the eight digit registers as a fixed-order sequence,
index 0 through 7. -/
def Register.digits : List Register :=
  [.Digit0, .Digit1, .Digit2, .Digit3, .Digit4, .Digit5, .Digit6, .Digit7]

/-- Modelled from the spec: the closed error taxonomy of §7 (the `Error`
type lives in the `error` module, not under src/).  The transport-failure
variant is omitted because the transport is modelled as an always-
successful log. -/
inductive Error where
  | InvalidDeviceCount
  | InvalidDeviceIndex
  | InvalidScanLimit
  | InvalidIntensity
  | InvalidDigit
deriving DecidableEq

/-- Modelled from the spec: `Register::try_digit` (registers module, not
under src/): digit indices 0..=7 map to the corresponding digit register,
anything else is the invalid-digit error. -/
def Register.try_digit (d : Nat) : Except Error Register :=
  match d with
  | 0 => .ok .Digit0
  | 1 => .ok .Digit1
  | 2 => .ok .Digit2
  | 3 => .ok .Digit3
  | 4 => .ok .Digit4
  | 5 => .ok .Digit5
  | 6 => .ok .Digit6
  | 7 => .ok .Digit7
  | _ => .error .InvalidDigit

/-- Modelled from the spec: the `DecodeMode` enumeration (registers
module, not under src/): four legal values, each with a fixed byte
payload (`mode as u8`). -/
inductive DecodeMode where
  | NoDecode
  | Digit0
  | Digits0To3
  | AllDigits
deriving DecidableEq

/-- Modelled from the spec: the fixed wire byte of each decode mode. -/
def DecodeMode.value : DecodeMode → Nat
  | .NoDecode => 0x00
  | .Digit0 => 0x01
  | .Digits0To3 => 0x0F
  | .AllDigits => 0xFF

/-- The all-zero transmit buffer `[0; MAX_DISPLAYS * 2]`. -/
def zeroBuffer : List Nat := List.replicate (MAX_DISPLAYS * 2) 0

/-- Driver state: the reusable transmit buffer and the configured chain
length (`struct Max7219`; the owned SPI handle is replaced by the frame
log in each operation's result). -/
structure Max7219 where
  buffer : List Nat
  device_count : Nat
deriving DecidableEq

/-- A transmitted SPI frame is a list of bytes; an operation's result is
the successor state together with the frames it transmitted, in order. -/
abbrev DriverResult := Except Error (Max7219 × List (List Nat))

/-- `Max7219::new`: device count defaults to 1, buffer all zero. -/
def Max7219.new : Max7219 :=
  { buffer := zeroBuffer, device_count := 1 }

/-- `Max7219::with_device_count`: rejects `count > MAX_DISPLAYS` with
`Error::InvalidDeviceCount`, otherwise stores the new count.  Note the
source checks only the upper bound. -/
def Max7219.with_device_count (m : Max7219) (count : Nat) : Except Error Max7219 :=
  if count > MAX_DISPLAYS then
    .error .InvalidDeviceCount
  else
    .ok { m with device_count := count }

/-- `Max7219::device_count` accessor. -/
def Max7219.get_device_count (m : Max7219) : Nat :=
  m.device_count

/-- `Max7219::write_device_register`: index check, zero the buffer, place
`(register as u8, data)` at offset `device_index * 2`, transmit the first
`device_count * 2` bytes as one frame. -/
def Max7219.write_device_register (m : Max7219) (device_index : Nat)
    (register : Register) (data : Nat) : DriverResult :=
  if device_index ≥ m.device_count then
    .error .InvalidDeviceIndex
  else
    let offset := device_index * 2
    let buf := (zeroBuffer.set offset register.addr).set (offset + 1) data
    .ok ({ m with buffer := buf }, [buf.take (m.device_count * 2)])

/-- The indexed write loop of `write_all_registers`: for each `(reg, data)`
at position `i` of `ops` (counting from the given start index), set bytes
`i * 2` and `i * 2 + 1` of the buffer. -/
def applyOpsFrom (buf : List Nat) (i : Nat) : List (Register × Nat) → List Nat
  | [] => buf
  | (reg, data) :: rest =>
      applyOpsFrom ((buf.set (i * 2) reg.addr).set (i * 2 + 1) data) (i + 1) rest

/-- `Max7219::write_all_registers`: zero the buffer, write each pair at
its offset, transmit exactly `device_count * 2` bytes.  The source body
contains no length check and no assertion. -/
def Max7219.write_all_registers (m : Max7219) (ops : List (Register × Nat)) : DriverResult :=
  let buf := applyOpsFrom zeroBuffer 0 ops
  .ok ({ m with buffer := buf }, [buf.take (m.device_count * 2)])

/-- `Max7219::power_on`: broadcast `(Shutdown, 0x01)` to every device
(`&ops[..self.device_count]` of a `MAX_DISPLAYS`-sized array). -/
def Max7219.power_on (m : Max7219) : DriverResult :=
  m.write_all_registers ((List.replicate MAX_DISPLAYS (Register.Shutdown, 0x01)).take m.device_count)

/-- `Max7219::power_off`: broadcast `(Shutdown, 0x00)`. -/
def Max7219.power_off (m : Max7219) : DriverResult :=
  m.write_all_registers ((List.replicate MAX_DISPLAYS (Register.Shutdown, 0x00)).take m.device_count)

/-- `Max7219::power_on_device`. -/
def Max7219.power_on_device (m : Max7219) (device_index : Nat) : DriverResult :=
  m.write_device_register device_index .Shutdown 0x01

/-- `Max7219::power_off_device`. -/
def Max7219.power_off_device (m : Max7219) (device_index : Nat) : DriverResult :=
  m.write_device_register device_index .Shutdown 0x00

/-- `Max7219::test_device`. -/
def Max7219.test_device (m : Max7219) (device_index : Nat) (enable : Bool) : DriverResult :=
  let data := if enable then 0x01 else 0x00
  m.write_device_register device_index .DisplayTest data

/-- `Max7219::test_all`. -/
def Max7219.test_all (m : Max7219) (enable : Bool) : DriverResult :=
  let data := if enable then 0x01 else 0x00
  m.write_all_registers ((List.replicate MAX_DISPLAYS (Register.DisplayTest, data)).take m.device_count)

/-- `Max7219::set_device_scan_limit`: limit must lie in 1..=8, the chip
receives `limit - 1`. -/
def Max7219.set_device_scan_limit (m : Max7219) (device_index : Nat) (limit : Nat) : DriverResult :=
  if ¬ (1 ≤ limit ∧ limit ≤ 8) then
    .error .InvalidScanLimit
  else
    m.write_device_register device_index .ScanLimit (limit - 1)

/-- `Max7219::set_scan_limit_all`. -/
def Max7219.set_scan_limit_all (m : Max7219) (limit : Nat) : DriverResult :=
  if ¬ (1 ≤ limit ∧ limit ≤ 8) then
    .error .InvalidScanLimit
  else
    let val := limit - 1
    m.write_all_registers ((List.replicate MAX_DISPLAYS (Register.ScanLimit, val)).take m.device_count)

/-- `Max7219::set_device_decode_mode`. -/
def Max7219.set_device_decode_mode (m : Max7219) (device_index : Nat) (mode : DecodeMode) : DriverResult :=
  m.write_device_register device_index .DecodeMode mode.value

/-- `Max7219::set_decode_mode_all`. -/
def Max7219.set_decode_mode_all (m : Max7219) (mode : DecodeMode) : DriverResult :=
  m.write_all_registers ((List.replicate MAX_DISPLAYS (Register.DecodeMode, mode.value)).take m.device_count)

/-- The per-digit loop of `clear_display`: one `write_device_register`
transmission per digit register, frames concatenated in order. -/
def clearDisplayLoop (device_index : Nat) : Max7219 → List Register → DriverResult
  | m, [] => .ok (m, [])
  | m, r :: rest =>
      match m.write_device_register device_index r 0x00 with
      | .error e => .error e
      | .ok (m1, f1) =>
          match clearDisplayLoop device_index m1 rest with
          | .error e => .error e
          | .ok (m2, f2) => .ok (m2, f1 ++ f2)

/-- `Max7219::clear_display`: writes 0 to each of the eight digit
registers of one device, one transmission per register. -/
def Max7219.clear_display (m : Max7219) (device_index : Nat) : DriverResult :=
  clearDisplayLoop device_index m Register.digits

/-- The per-digit loop of `clear_all`: one broadcast transmission per
digit register. -/
def clearAllLoop : Max7219 → List Register → DriverResult
  | m, [] => .ok (m, [])
  | m, r :: rest =>
      match m.write_all_registers ((List.replicate MAX_DISPLAYS (r, 0x00)).take m.device_count) with
      | .error e => .error e
      | .ok (m1, f1) =>
          match clearAllLoop m1 rest with
          | .error e => .error e
          | .ok (m2, f2) => .ok (m2, f1 ++ f2)

/-- `Max7219::clear_all`. -/
def Max7219.clear_all (m : Max7219) : DriverResult :=
  clearAllLoop m Register.digits

/-- `Max7219::write_raw_digit`: digit index resolved through
`Register::try_digit`, then a single-device register write. -/
def Max7219.write_raw_digit (m : Max7219) (device_index : Nat) (digit : Nat) (value : Nat) : DriverResult :=
  match Register.try_digit digit with
  | .error e => .error e
  | .ok digit_register => m.write_device_register device_index digit_register value

/-- `Max7219::set_intensity`: intensity must be at most 0x0F. -/
def Max7219.set_intensity (m : Max7219) (device_index : Nat) (intensity : Nat) : DriverResult :=
  if intensity > 0x0F then
    .error .InvalidIntensity
  else
    m.write_device_register device_index .Intensity intensity

/-- `Max7219::set_intensity_all`. -/
def Max7219.set_intensity_all (m : Max7219) (intensity : Nat) : DriverResult :=
  if intensity > 0x0F then
    .error .InvalidIntensity
  else
    m.write_all_registers ((List.replicate MAX_DISPLAYS (Register.Intensity, intensity)).take m.device_count)

/-- `Max7219::init`: power-on, test off, scan limit `NUM_DIGITS`,
decode mode `NoDecode`, clear all — in that order, frames concatenated. -/
def Max7219.init (m : Max7219) : DriverResult :=
  match m.power_on with
  | .error e => .error e
  | .ok (m1, f1) =>
    match m1.test_all false with
    | .error e => .error e
    | .ok (m2, f2) =>
      match m2.set_scan_limit_all NUM_DIGITS with
      | .error e => .error e
      | .ok (m3, f3) =>
        match m3.set_decode_mode_all .NoDecode with
        | .error e => .error e
        | .ok (m4, f4) =>
          match m4.clear_all with
          | .error e => .error e
          | .ok (m5, f5) => .ok (m5, f1 ++ f2 ++ f3 ++ f4 ++ f5)

/-- The buffer produced by `write_device_register` for a target pair. -/
def oneBuf (i : Nat) (r : Register) (v : Nat) : List Nat :=
  (zeroBuffer.set (i * 2) r.addr).set (i * 2 + 1) v

/-- The frame transmitted by `write_device_register` on a chain of `dc`
devices. -/
def oneFrame (dc i : Nat) (r : Register) (v : Nat) : List Nat :=
  (oneBuf i r v).take (dc * 2)

/-- The buffer produced by a broadcast operation on a chain of `dc`
devices. -/
def allBuf (dc : Nat) (r : Register) (v : Nat) : List Nat :=
  applyOpsFrom zeroBuffer 0 ((List.replicate MAX_DISPLAYS (r, v)).take dc)

/-- The frame transmitted by a broadcast operation on a chain of `dc`
devices. -/
def allFrame (dc : Nat) (r : Register) (v : Nat) : List Nat :=
  (allBuf dc r v).take (dc * 2)

/-- The idempotence contract of a broadcast operation: whenever a call
succeeds, the transmitted frames are independent of the buffer contents
held before the call, and an immediate second call on the resulting state
transmits the identical frames. -/
def broadcastIdem (op : Max7219 → DriverResult) : Prop :=
  ∀ m m1 fs1, op m = .ok (m1, fs1) →
    (∀ b, ∃ m', op { m with buffer := b } = .ok (m', fs1)) ∧
    ∃ m2, op m1 = .ok (m2, fs1)

/-- The structural state invariant: the configured chain length never
exceeds `MAX_DISPLAYS`, and the transmit buffer always has the fixed
capacity `MAX_DISPLAYS * 2`. -/
def GoodState (m : Max7219) : Prop :=
  m.device_count ≤ MAX_DISPLAYS ∧ m.buffer.length = MAX_DISPLAYS * 2

/-- One application of a driver operation (the public surface plus the
two crate-internal write primitives). -/
def Step (m m' : Max7219) : Prop :=
  (∃ c, m.with_device_count c = .ok m') ∨
  (∃ i r v fs, m.write_device_register i r v = .ok (m', fs)) ∨
  (∃ ops fs, m.write_all_registers ops = .ok (m', fs)) ∨
  (∃ fs, m.power_on = .ok (m', fs)) ∨
  (∃ fs, m.power_off = .ok (m', fs)) ∨
  (∃ i fs, m.power_on_device i = .ok (m', fs)) ∨
  (∃ i fs, m.power_off_device i = .ok (m', fs)) ∨
  (∃ i e fs, m.test_device i e = .ok (m', fs)) ∨
  (∃ e fs, m.test_all e = .ok (m', fs)) ∨
  (∃ i v fs, m.set_device_scan_limit i v = .ok (m', fs)) ∨
  (∃ v fs, m.set_scan_limit_all v = .ok (m', fs)) ∨
  (∃ i mode fs, m.set_device_decode_mode i mode = .ok (m', fs)) ∨
  (∃ mode fs, m.set_decode_mode_all mode = .ok (m', fs)) ∨
  (∃ i fs, m.clear_display i = .ok (m', fs)) ∨
  (∃ fs, m.clear_all = .ok (m', fs)) ∨
  (∃ i d v fs, m.write_raw_digit i d v = .ok (m', fs)) ∨
  (∃ i v fs, m.set_intensity i v = .ok (m', fs)) ∨
  (∃ v fs, m.set_intensity_all v = .ok (m', fs)) ∨
  (∃ fs, m.init = .ok (m', fs))

/-- The driver states reachable from construction through the public
operations. -/
inductive Reachable : Max7219 → Prop where
  | base : Reachable Max7219.new
  | step {m m' : Max7219} : Reachable m → Step m m' → Reachable m'

lemma zeroBuffer_length : zeroBuffer.length = MAX_DISPLAYS * 2 := by
  simp [zeroBuffer]

lemma wdr_ok (m : Max7219) (i : Nat) (r : Register) (v : Nat)
    (hi : i < m.device_count) :
    m.write_device_register i r v =
      .ok ({ m with buffer := oneBuf i r v }, [oneFrame m.device_count i r v]) := by
  unfold Max7219.write_device_register
  rw [if_neg (by omega)]
  rfl

lemma wdr_err (m : Max7219) (i : Nat) (r : Register) (v : Nat)
    (hi : m.device_count ≤ i) :
    m.write_device_register i r v = .error .InvalidDeviceIndex := by
  unfold Max7219.write_device_register
  rw [if_pos hi]

lemma oneBuf_length (i : Nat) (r : Register) (v : Nat) :
    (oneBuf i r v).length = MAX_DISPLAYS * 2 := by
  simp [oneBuf, zeroBuffer]

lemma oneFrame_length (dc i : Nat) (r : Register) (v : Nat)
    (hdc : dc ≤ MAX_DISPLAYS) :
    (oneFrame dc i r v).length = dc * 2 := by
  rw [oneFrame, List.length_take, oneBuf_length]
  omega

lemma oneFrame_addr (dc i : Nat) (r : Register) (v : Nat)
    (hdc : dc ≤ MAX_DISPLAYS) (hi : i < dc) :
    (oneFrame dc i r v)[i * 2]? = some r.addr := by
  rw [oneFrame, List.getElem?_take, if_pos (by omega), oneBuf,
      List.getElem?_set_ne (by omega),
      List.getElem?_set_self (by rw [zeroBuffer_length]; omega)]

lemma oneFrame_data (dc i : Nat) (r : Register) (v : Nat)
    (hdc : dc ≤ MAX_DISPLAYS) (hi : i < dc) :
    (oneFrame dc i r v)[i * 2 + 1]? = some v := by
  rw [oneFrame, List.getElem?_take, if_pos (by omega), oneBuf,
      List.getElem?_set_self (by rw [List.length_set, zeroBuffer_length]; omega)]

lemma oneFrame_zero (dc i : Nat) (r : Register) (v : Nat) (j : Nat)
    (hdc : dc ≤ MAX_DISPLAYS) (hj : j < dc * 2)
    (h1 : j ≠ i * 2) (h2 : j ≠ i * 2 + 1) :
    (oneFrame dc i r v)[j]? = some 0 := by
  rw [oneFrame, List.getElem?_take, if_pos hj, oneBuf,
      List.getElem?_set_ne (by omega), List.getElem?_set_ne (by omega),
      zeroBuffer, List.getElem?_replicate, if_pos (by omega)]

lemma applyOpsFrom_length (ops : List (Register × Nat)) :
    ∀ (buf : List Nat) (i : Nat), (applyOpsFrom buf i ops).length = buf.length := by
  induction ops with
  | nil => intro buf i; rfl
  | cons p rest ih =>
      intro buf i
      cases p with
      | mk r d => rw [applyOpsFrom, ih, List.length_set, List.length_set]

lemma applyOpsFrom_getElem_lt (ops : List (Register × Nat)) :
    ∀ (buf : List Nat) (i j : Nat), j < i * 2 →
      (applyOpsFrom buf i ops)[j]? = buf[j]? := by
  induction ops with
  | nil => intro buf i j _; rfl
  | cons p rest ih =>
      intro buf i j hj
      cases p with
      | mk r d =>
          rw [applyOpsFrom, ih _ (i + 1) j (by omega),
              List.getElem?_set_ne (by omega), List.getElem?_set_ne (by omega)]

lemma applyOpsFrom_getElem_hit (ops : List (Register × Nat)) :
    ∀ (buf : List Nat) (i k : Nat) (r : Register) (d : Nat),
      ops[k]? = some (r, d) → (i + ops.length) * 2 ≤ buf.length →
      (applyOpsFrom buf i ops)[(i + k) * 2]? = some r.addr ∧
        (applyOpsFrom buf i ops)[(i + k) * 2 + 1]? = some d := by
  induction ops with
  | nil => intro buf i k r d hk _; simp at hk
  | cons p rest ih =>
      intro buf i k r d hk hlen
      cases p with
      | mk r0 d0 =>
          rw [List.length_cons] at hlen
          cases k with
          | zero =>
              rw [List.getElem?_cons_zero, Option.some_inj] at hk
              cases hk
              simp only [Nat.add_zero]
              rw [applyOpsFrom]
              constructor
              · rw [applyOpsFrom_getElem_lt _ _ _ _ (by omega),
                    List.getElem?_set_ne (by omega),
                    List.getElem?_set_self (by omega)]
              · rw [applyOpsFrom_getElem_lt _ _ _ _ (by omega),
                    List.getElem?_set_self (by rw [List.length_set]; omega)]
          | succ k' =>
              rw [List.getElem?_cons_succ] at hk
              rw [applyOpsFrom]
              have hstep : i + (k' + 1) = (i + 1) + k' := by omega
              rw [hstep]
              refine ih _ (i + 1) k' r d hk ?_
              rw [List.length_set, List.length_set]
              omega

lemma allBuf_length (dc : Nat) (r : Register) (v : Nat) :
    (allBuf dc r v).length = MAX_DISPLAYS * 2 := by
  rw [allBuf, applyOpsFrom_length, zeroBuffer_length]

lemma allFrame_length (dc : Nat) (r : Register) (v : Nat)
    (hdc : dc ≤ MAX_DISPLAYS) :
    (allFrame dc r v).length = dc * 2 := by
  rw [allFrame, List.length_take, allBuf_length]
  omega

lemma broadcast_ops_eq (dc : Nat) (r : Register) (v : Nat)
    (hdc : dc ≤ MAX_DISPLAYS) :
    (List.replicate MAX_DISPLAYS (r, v)).take dc = List.replicate dc (r, v) := by
  rw [List.take_replicate, Nat.min_eq_left hdc]

lemma allFrame_pair (dc : Nat) (r : Register) (v : Nat) (k : Nat)
    (hdc : dc ≤ MAX_DISPLAYS) (hk : k < dc) :
    (allFrame dc r v)[k * 2]? = some r.addr ∧
      (allFrame dc r v)[k * 2 + 1]? = some v := by
  have h := applyOpsFrom_getElem_hit ((List.replicate MAX_DISPLAYS (r, v)).take dc)
    zeroBuffer 0 k r v
    (by rw [broadcast_ops_eq dc r v hdc, List.getElem?_replicate, if_pos hk])
    (by rw [broadcast_ops_eq dc r v hdc, List.length_replicate, zeroBuffer_length]; omega)
  rw [Nat.zero_add] at h
  constructor
  · rw [allFrame, List.getElem?_take, if_pos (by omega), allBuf]
    exact h.1
  · rw [allFrame, List.getElem?_take, if_pos (by omega), allBuf]
    exact h.2

lemma war_eq (m : Max7219) (ops : List (Register × Nat)) :
    m.write_all_registers ops =
      .ok ({ m with buffer := applyOpsFrom zeroBuffer 0 ops },
           [(applyOpsFrom zeroBuffer 0 ops).take (m.device_count * 2)]) := rfl

lemma broadcast_eq (m : Max7219) (r : Register) (v : Nat) :
    m.write_all_registers ((List.replicate MAX_DISPLAYS (r, v)).take m.device_count) =
      .ok ({ m with buffer := allBuf m.device_count r v },
           [allFrame m.device_count r v]) := rfl

lemma clearDisplayLoop_ok (i : Nat) (rs : List Register) :
    ∀ (m : Max7219), i < m.device_count →
      ∃ st, clearDisplayLoop i m rs =
          .ok (st, rs.map (fun r => oneFrame m.device_count i r 0x00)) ∧
        st.device_count = m.device_count := by
  induction rs with
  | nil => intro m _; exact ⟨m, rfl, rfl⟩
  | cons r rest ih =>
      intro m hi
      obtain ⟨st, hst, hdc⟩ := ih { m with buffer := oneBuf i r 0x00 } hi
      refine ⟨st, ?_, hdc⟩
      simp only [clearDisplayLoop, wdr_ok m i r 0x00 hi, hst, List.map_cons,
                 List.singleton_append]

lemma clearAllLoop_ok (rs : List Register) :
    ∀ m : Max7219,
      ∃ st, clearAllLoop m rs =
          .ok (st, rs.map (fun r => allFrame m.device_count r 0x00)) ∧
        st.device_count = m.device_count := by
  induction rs with
  | nil => intro m; exact ⟨m, rfl, rfl⟩
  | cons r rest ih =>
      intro m
      obtain ⟨st, hst, hdc⟩ := ih { m with buffer := allBuf m.device_count r 0x00 }
      refine ⟨st, ?_, hdc⟩
      simp only [clearAllLoop, broadcast_eq m r 0x00, hst, List.map_cons,
                 List.singleton_append]

lemma broadcastIdem_of_frames (op : Max7219 → DriverResult)
    (F : Nat → List (List Nat))
    (h : ∀ m : Max7219, ∃ st, op m = .ok (st, F m.device_count) ∧
      st.device_count = m.device_count) :
    broadcastIdem op := by
  intro m m1 fs1 hm
  obtain ⟨st, hop, hdc⟩ := h m
  rw [hop] at hm
  simp only [Except.ok.injEq, Prod.mk.injEq] at hm
  obtain ⟨hst, hfs⟩ := hm
  constructor
  · intro b
    obtain ⟨st', hop', _⟩ := h { m with buffer := b }
    exact ⟨st', by rw [hop', ← hfs]⟩
  · obtain ⟨st2, hop2, _⟩ := h m1
    refine ⟨st2, ?_⟩
    rw [hop2, ← hst, hdc, ← hfs]

lemma broadcastIdem_error (op : Max7219 → DriverResult)
    (h : ∀ m : Max7219, ∃ e, op m = .error e) :
    broadcastIdem op := by
  intro m m1 fs1 hm
  obtain ⟨e, he⟩ := h m
  rw [he] at hm
  simp at hm

lemma wdr_ok_inv {m m' : Max7219} {i : Nat} {r : Register} {v : Nat}
    {fs : List (List Nat)}
    (h : m.write_device_register i r v = .ok (m', fs)) :
    m'.device_count = m.device_count ∧ m'.buffer.length = MAX_DISPLAYS * 2 := by
  by_cases hi : m.device_count ≤ i
  · rw [wdr_err m i r v hi] at h
    simp at h
  · rw [wdr_ok m i r v (by omega)] at h
    simp only [Except.ok.injEq, Prod.mk.injEq] at h
    obtain ⟨hstate, -⟩ := h
    rw [← hstate]
    exact ⟨rfl, oneBuf_length i r v⟩

lemma war_ok_inv {m m' : Max7219} {ops : List (Register × Nat)}
    {fs : List (List Nat)}
    (h : m.write_all_registers ops = .ok (m', fs)) :
    m'.device_count = m.device_count ∧ m'.buffer.length = MAX_DISPLAYS * 2 := by
  rw [war_eq] at h
  simp only [Except.ok.injEq, Prod.mk.injEq] at h
  obtain ⟨hstate, -⟩ := h
  rw [← hstate]
  refine ⟨rfl, ?_⟩
  show (applyOpsFrom zeroBuffer 0 ops).length = MAX_DISPLAYS * 2
  rw [applyOpsFrom_length, zeroBuffer_length]

lemma clearDisplayLoop_inv (i : Nat) (rs : List Register) :
    ∀ {m m' : Max7219} {fs : List (List Nat)},
      clearDisplayLoop i m rs = .ok (m', fs) →
      m'.device_count = m.device_count ∧
        (m'.buffer.length = MAX_DISPLAYS * 2 ∨ m' = m) := by
  induction rs with
  | nil =>
      intro m m' fs h
      rw [clearDisplayLoop] at h
      simp only [Except.ok.injEq, Prod.mk.injEq] at h
      obtain ⟨hm, -⟩ := h
      rw [← hm]
      exact ⟨rfl, Or.inr rfl⟩
  | cons r rest ih =>
      intro m m' fs h
      rw [clearDisplayLoop] at h
      split at h
      · simp at h
      · rename_i m1 f1 hw
        split at h
        · simp at h
        · rename_i m2 f2 hc
          simp only [Except.ok.injEq, Prod.mk.injEq] at h
          obtain ⟨hm, -⟩ := h
          obtain ⟨hw1, hw2⟩ := wdr_ok_inv hw
          obtain ⟨hc1, hc2⟩ := ih hc
          rw [← hm]
          refine ⟨by rw [hc1, hw1], ?_⟩
          rcases hc2 with h2 | h2
          · exact Or.inl h2
          · rw [h2]
            exact Or.inl hw2

lemma clearAllLoop_inv (rs : List Register) :
    ∀ {m m' : Max7219} {fs : List (List Nat)},
      clearAllLoop m rs = .ok (m', fs) →
      m'.device_count = m.device_count ∧
        (m'.buffer.length = MAX_DISPLAYS * 2 ∨ m' = m) := by
  induction rs with
  | nil =>
      intro m m' fs h
      rw [clearAllLoop] at h
      simp only [Except.ok.injEq, Prod.mk.injEq] at h
      obtain ⟨hm, -⟩ := h
      rw [← hm]
      exact ⟨rfl, Or.inr rfl⟩
  | cons r rest ih =>
      intro m m' fs h
      rw [clearAllLoop] at h
      split at h
      · simp at h
      · rename_i m1 f1 hw
        split at h
        · simp at h
        · rename_i m2 f2 hc
          simp only [Except.ok.injEq, Prod.mk.injEq] at h
          obtain ⟨hm, -⟩ := h
          obtain ⟨hw1, hw2⟩ := war_ok_inv hw
          obtain ⟨hc1, hc2⟩ := ih hc
          rw [← hm]
          refine ⟨by rw [hc1, hw1], ?_⟩
          rcases hc2 with h2 | h2
          · exact Or.inl h2
          · rw [h2]
            exact Or.inl hw2

lemma with_device_count_inv {m m' : Max7219} {c : Nat}
    (h : m.with_device_count c = .ok m') :
    m'.device_count = c ∧ m'.device_count ≤ MAX_DISPLAYS ∧ m'.buffer = m.buffer := by
  rw [Max7219.with_device_count] at h
  split at h
  · simp at h
  · rename_i hc
    simp only [Except.ok.injEq] at h
    rw [← h]
    refine ⟨rfl, ?_, rfl⟩
    show c ≤ MAX_DISPLAYS
    omega

lemma step_good {m m' : Max7219} (hs : Step m m') (hg : GoodState m) :
    GoodState m' := by
  obtain ⟨hdc, hlen⟩ := hg
  have wdrG : ∀ {i : Nat} {r : Register} {v : Nat} {fs : List (List Nat)},
      m.write_device_register i r v = .ok (m', fs) → GoodState m' := by
    intro i r v fs h
    obtain ⟨h1, h2⟩ := wdr_ok_inv h
    exact ⟨by omega, h2⟩
  have warG : ∀ {ops : List (Register × Nat)} {fs : List (List Nat)},
      m.write_all_registers ops = .ok (m', fs) → GoodState m' := by
    intro ops fs h
    obtain ⟨h1, h2⟩ := war_ok_inv h
    exact ⟨by omega, h2⟩
  rcases hs with ⟨c, h⟩ | ⟨i, r, v, fs, h⟩ | ⟨ops, fs, h⟩ | ⟨fs, h⟩ | ⟨fs, h⟩ |
    ⟨i, fs, h⟩ | ⟨i, fs, h⟩ | ⟨i, e, fs, h⟩ | ⟨e, fs, h⟩ | ⟨i, v, fs, h⟩ |
    ⟨v, fs, h⟩ | ⟨i, mo, fs, h⟩ | ⟨mo, fs, h⟩ | ⟨i, fs, h⟩ | ⟨fs, h⟩ |
    ⟨i, d, v, fs, h⟩ | ⟨i, v, fs, h⟩ | ⟨v, fs, h⟩ | ⟨fs, h⟩
  · obtain ⟨-, h2, h3⟩ := with_device_count_inv h
    exact ⟨h2, by rw [h3]; exact hlen⟩
  · exact wdrG h
  · exact warG h
  · exact warG h
  · exact warG h
  · exact wdrG h
  · exact wdrG h
  · exact wdrG h
  · exact warG h
  · rw [Max7219.set_device_scan_limit] at h
    split at h
    · simp at h
    · exact wdrG h
  · rw [Max7219.set_scan_limit_all] at h
    split at h
    · simp at h
    · exact warG h
  · exact wdrG h
  · exact warG h
  · obtain ⟨h1, h2⟩ := clearDisplayLoop_inv i Register.digits h
    refine ⟨by omega, ?_⟩
    rcases h2 with h2 | h2
    · exact h2
    · rw [h2]; exact hlen
  · obtain ⟨h1, h2⟩ := clearAllLoop_inv Register.digits h
    refine ⟨by omega, ?_⟩
    rcases h2 with h2 | h2
    · exact h2
    · rw [h2]; exact hlen
  · rw [Max7219.write_raw_digit] at h
    split at h
    · simp at h
    · exact wdrG h
  · rw [Max7219.set_intensity] at h
    split at h
    · simp at h
    · exact wdrG h
  · rw [Max7219.set_intensity_all] at h
    split at h
    · simp at h
    · exact warG h
  · rw [Max7219.init] at h
    split at h
    · simp at h
    · rename_i m1 f1 h1
      split at h
      · simp at h
      · rename_i m2 f2 h2
        split at h
        · simp at h
        · rename_i m3 f3 h3
          split at h
          · simp at h
          · rename_i m4 f4 h4
            split at h
            · simp at h
            · rename_i m5 f5 h5
              simp only [Except.ok.injEq, Prod.mk.injEq] at h
              obtain ⟨hm, -⟩ := h
              obtain ⟨d1, l1⟩ := war_ok_inv h1
              obtain ⟨d2, l2⟩ := war_ok_inv h2
              rw [Max7219.set_scan_limit_all] at h3
              split at h3
              · simp at h3
              · have hw3 := war_ok_inv h3
                obtain ⟨d3, l3⟩ := hw3
                obtain ⟨d4, l4⟩ := war_ok_inv h4
                obtain ⟨d5, l5⟩ := clearAllLoop_inv Register.digits h5
                rw [← hm]
                refine ⟨by omega, ?_⟩
                rcases l5 with l5 | l5
                · exact l5
                · rw [l5]; exact l4

lemma reachable_good {m : Max7219} (h : Reachable m) : GoodState m := by
  induction h with
  | base => exact ⟨by decide, by decide⟩
  | step _ hs ih => exact step_good hs ih

/-- C1: for every configured chain length `L` with `1 ≤ L ≤ MAX_DISPLAYS`
and every device index `i < L`, `write_device_register i R V` transmits a
single frame of exactly `2 * L` bytes in which bytes `i*2` and `i*2+1`
are `R.addr` and `V`, and every other byte is 0 (so every other byte-pair
is the no-op pair `[0, 0]`). -/
theorem C1_write_device_register_frame (m : Max7219) (i : Nat) (R : Register) (V : Nat)
    (_hL1 : 1 ≤ m.device_count) (hLmax : m.device_count ≤ MAX_DISPLAYS)
    (hi : i < m.device_count) :
    ∃ st frame, m.write_device_register i R V = .ok (st, [frame]) ∧
      frame.length = m.device_count * 2 ∧
      frame[i * 2]? = some R.addr ∧ frame[i * 2 + 1]? = some V ∧
      ∀ j, j < m.device_count * 2 → j ≠ i * 2 → j ≠ i * 2 + 1 → frame[j]? = some 0 :=
  ⟨_, oneFrame m.device_count i R V, wdr_ok m i R V hi,
    oneFrame_length _ _ _ _ hLmax,
    oneFrame_addr _ _ _ _ hLmax hi,
    oneFrame_data _ _ _ _ hLmax hi,
    fun j hj h1 h2 => oneFrame_zero _ _ _ _ j hLmax hj h1 h2⟩

/-- Witness for C1: the spec's concrete scenario — chain length 4,
shutdown write to device 2 — evaluated through the theorem. -/
theorem C1_witness :
    ∃ st frame,
      (Max7219.mk zeroBuffer 4).write_device_register 2 .Shutdown 0 = .ok (st, [frame]) ∧
      frame.length = (Max7219.mk zeroBuffer 4).device_count * 2 ∧
      frame[2 * 2]? = some Register.Shutdown.addr ∧ frame[2 * 2 + 1]? = some 0 ∧
      ∀ j, j < (Max7219.mk zeroBuffer 4).device_count * 2 →
        j ≠ 2 * 2 → j ≠ 2 * 2 + 1 → frame[j]? = some 0 :=
  C1_write_device_register_frame (Max7219.mk zeroBuffer 4) 2 .Shutdown 0
    (by decide) (by decide) (by decide)

/-- C2 counterexample: the claim says `with_device_count 0` fails with
the invalid-device-count error, but the source checks only the upper
bound (`count > MAX_DISPLAYS`), so the call succeeds and stores a chain
length of 0. -/
theorem C2_counterexample :
    Max7219.new.with_device_count 0 = .ok (Max7219.mk zeroBuffer 0) := by
  rfl

/-- C2 (amended): `with_device_count count` fails with
`Error::InvalidDeviceCount` exactly when `count > MAX_DISPLAYS` — in that
case no new driver state is produced at all, so no stored configuration is
altered — and for every `count ≤ MAX_DISPLAYS` (including 0) it succeeds,
after which `device_count()` returns the new value and the buffer is
untouched. -/
theorem C2_with_device_count (m : Max7219) (count : Nat) :
    (MAX_DISPLAYS < count → m.with_device_count count = .error .InvalidDeviceCount) ∧
    (count ≤ MAX_DISPLAYS →
      ∃ m', m.with_device_count count = .ok m' ∧
        m'.get_device_count = count ∧ m'.buffer = m.buffer) := by
  constructor
  · intro h
    rw [Max7219.with_device_count, if_pos h]
  · intro h
    refine ⟨{ m with device_count := count }, ?_, rfl, rfl⟩
    rw [Max7219.with_device_count, if_neg (by omega)]

/-- Witness for C2: count 9 is rejected, count 4 is accepted and stored. -/
theorem C2_witness :
    Max7219.new.with_device_count 9 = .error .InvalidDeviceCount ∧
    ∃ m', Max7219.new.with_device_count 4 = .ok m' ∧
      m'.get_device_count = 4 ∧ m'.buffer = Max7219.new.buffer :=
  ⟨(C2_with_device_count Max7219.new 9).1 (by decide),
   (C2_with_device_count Max7219.new 4).2 (by decide)⟩

/-- C3: the claim (and the source's own doc comment, "Panics (only in
debug builds) if `ops.len() != self.device_count`") says a mismatched
operation-list length is caught by a debug assertion, but the body of
`write_all_registers` contains no assertion at all: with 2 configured
devices and a single-element list the call succeeds and transmits a
4-byte frame whose second pair is the zero no-op, with no panic path and
no error. -/
theorem C3_mismatched_ops_silently_accepted :
    (Max7219.mk zeroBuffer 2).write_all_registers [(Register.Intensity, 1)] =
      .ok (Max7219.mk ((zeroBuffer.set 0 Register.Intensity.addr).set 1 1) 2,
           [[Register.Intensity.addr, 1, 0, 0]]) := by
  rfl

/-- C4: for every device index at or beyond the configured chain length,
`write_device_register` returns the invalid-device-index error; the error
result carries no transmitted frames, so nothing is written to the
transport. -/
theorem C4_invalid_index_no_transmission (m : Max7219) (i : Nat) (R : Register) (V : Nat)
    (hi : m.device_count ≤ i) :
    m.write_device_register i R V = .error .InvalidDeviceIndex :=
  wdr_err m i R V hi

/-- Witness for C4: a fresh single-device driver rejects index 1. -/
theorem C4_witness :
    Max7219.new.write_device_register 1 .Shutdown 1 = .error .InvalidDeviceIndex :=
  C4_invalid_index_no_transmission Max7219.new 1 .Shutdown 1 (by decide)

/-- C5: for valid scan-limit inputs (1..=8) both scan-limit operations
transmit the byte `v - 1` to the ScanLimit register position of the
target device(s); for `v = 0` or `v ≥ 9` both return the invalid-scan-
limit error and, the error result carrying no frames, transmit
nothing. -/
theorem C5_scan_limit (m : Max7219) (i v : Nat)
    (hdc : m.device_count ≤ MAX_DISPLAYS) :
    (1 ≤ v → v ≤ 8 →
      (i < m.device_count →
        ∃ st frame, m.set_device_scan_limit i v = .ok (st, [frame]) ∧
          frame[i * 2]? = some Register.ScanLimit.addr ∧
          frame[i * 2 + 1]? = some (v - 1)) ∧
      ∃ st frame, m.set_scan_limit_all v = .ok (st, [frame]) ∧
        ∀ k, k < m.device_count →
          frame[k * 2]? = some Register.ScanLimit.addr ∧
          frame[k * 2 + 1]? = some (v - 1)) ∧
    (v = 0 ∨ 9 ≤ v →
      m.set_device_scan_limit i v = .error .InvalidScanLimit ∧
      m.set_scan_limit_all v = .error .InvalidScanLimit) := by
  constructor
  · intro h1 h8
    constructor
    · intro hi
      refine ⟨{ m with buffer := oneBuf i .ScanLimit (v - 1) },
        oneFrame m.device_count i .ScanLimit (v - 1), ?_,
        oneFrame_addr _ _ _ _ hdc hi, oneFrame_data _ _ _ _ hdc hi⟩
      rw [Max7219.set_device_scan_limit, if_neg (not_not_intro ⟨h1, h8⟩)]
      exact wdr_ok m i _ _ hi
    · refine ⟨{ m with buffer := allBuf m.device_count .ScanLimit (v - 1) },
        allFrame m.device_count .ScanLimit (v - 1), ?_,
        fun k hk => allFrame_pair _ _ _ _ hdc hk⟩
      rw [Max7219.set_scan_limit_all, if_neg (not_not_intro ⟨h1, h8⟩)]
      exact broadcast_eq m _ _
  · intro hv
    constructor
    · rw [Max7219.set_device_scan_limit, if_pos (by omega)]
    · rw [Max7219.set_scan_limit_all, if_pos (by omega)]

/-- Witness for C5: the spec's concrete scenario — chain length 1,
`set_scan_limit_all 4` transmits the byte 3 — together with the failing
input 9. -/
theorem C5_witness :
    (∃ st frame, Max7219.new.set_scan_limit_all 4 = .ok (st, [frame]) ∧
      ∀ k, k < Max7219.new.device_count →
        frame[k * 2]? = some Register.ScanLimit.addr ∧
        frame[k * 2 + 1]? = some (4 - 1)) ∧
    Max7219.new.set_scan_limit_all 9 = .error .InvalidScanLimit :=
  ⟨((C5_scan_limit Max7219.new 0 4 (by decide)).1 (by decide) (by decide)).2,
   ((C5_scan_limit Max7219.new 0 9 (by decide)).2 (by decide)).2⟩

/-- C8: for every intensity at most 15 both intensity operations succeed
and transmit the byte `v` itself to the Intensity register position; for
`v ≥ 16` both return the invalid-intensity error and transmit nothing. -/
theorem C8_intensity (m : Max7219) (i v : Nat)
    (hdc : m.device_count ≤ MAX_DISPLAYS) :
    (v ≤ 15 →
      (i < m.device_count →
        ∃ st frame, m.set_intensity i v = .ok (st, [frame]) ∧
          frame[i * 2]? = some Register.Intensity.addr ∧
          frame[i * 2 + 1]? = some v) ∧
      ∃ st frame, m.set_intensity_all v = .ok (st, [frame]) ∧
        ∀ k, k < m.device_count →
          frame[k * 2]? = some Register.Intensity.addr ∧
          frame[k * 2 + 1]? = some v) ∧
    (16 ≤ v →
      m.set_intensity i v = .error .InvalidIntensity ∧
      m.set_intensity_all v = .error .InvalidIntensity) := by
  constructor
  · intro h15
    constructor
    · intro hi
      refine ⟨{ m with buffer := oneBuf i .Intensity v },
        oneFrame m.device_count i .Intensity v, ?_,
        oneFrame_addr _ _ _ _ hdc hi, oneFrame_data _ _ _ _ hdc hi⟩
      rw [Max7219.set_intensity, if_neg (by omega)]
      exact wdr_ok m i _ _ hi
    · refine ⟨{ m with buffer := allBuf m.device_count .Intensity v },
        allFrame m.device_count .Intensity v, ?_,
        fun k hk => allFrame_pair _ _ _ _ hdc hk⟩
      rw [Max7219.set_intensity_all, if_neg (by omega)]
      exact broadcast_eq m _ _
  · intro hv
    constructor
    · rw [Max7219.set_intensity, if_pos (by omega)]
    · rw [Max7219.set_intensity_all, if_pos (by omega)]

/-- Witness for C8: intensity 15 succeeds with transmitted byte 15 on a
fresh single-device driver; intensity 16 is rejected. -/
theorem C8_witness :
    (∃ st frame, Max7219.new.set_intensity_all 15 = .ok (st, [frame]) ∧
      ∀ k, k < Max7219.new.device_count →
        frame[k * 2]? = some Register.Intensity.addr ∧
        frame[k * 2 + 1]? = some 15) ∧
    Max7219.new.set_intensity 0 16 = .error .InvalidIntensity :=
  ⟨((C8_intensity Max7219.new 0 15 (by decide)).1 (by decide)).2,
   ((C8_intensity Max7219.new 0 16 (by decide)).2 (by decide)).1⟩

/-- C6: `clear_display` on a valid device index issues exactly 8 separate
transmissions — one per digit register, in the fixed order
`Register::digits()` (Digit0 through Digit7) — each a full-chain frame
carrying the pair `(digit address, 0x00)` at the target device's position
and the no-op pair `[0, 0]` everywhere else. -/
theorem C6_clear_display (m : Max7219) (i : Nat)
    (hdc : m.device_count ≤ MAX_DISPLAYS) (hi : i < m.device_count) :
    ∃ st frames, m.clear_display i = .ok (st, frames) ∧
      frames = Register.digits.map (fun r => oneFrame m.device_count i r 0x00) ∧
      frames.length = 8 ∧
      ∀ k, k < 8 →
        ∃ r frame, Register.digits[k]? = some r ∧ frames[k]? = some frame ∧
          frame.length = m.device_count * 2 ∧
          frame[i * 2]? = some r.addr ∧ frame[i * 2 + 1]? = some 0 ∧
          ∀ j, j < m.device_count * 2 → j ≠ i * 2 → j ≠ i * 2 + 1 →
            frame[j]? = some 0 := by
  obtain ⟨st, hst, _⟩ := clearDisplayLoop_ok i Register.digits m hi
  refine ⟨st, _, hst, rfl, by simp [Register.digits], ?_⟩
  intro k hk
  have hklen : k < Register.digits.length := by
    simp only [Register.digits, List.length_cons, List.length_nil]
    omega
  refine ⟨Register.digits[k], oneFrame m.device_count i (Register.digits[k]) 0x00,
    List.getElem?_eq_getElem hklen, ?_,
    oneFrame_length _ _ _ _ hdc,
    oneFrame_addr _ _ _ _ hdc hi,
    oneFrame_data _ _ _ _ hdc hi,
    fun j hj h1 h2 => oneFrame_zero _ _ _ _ j hdc hj h1 h2⟩
  rw [List.getElem?_map, List.getElem?_eq_getElem hklen]
  rfl

/-- Witness for C6: a fresh single-device driver, clearing device 0. -/
theorem C6_witness :
    ∃ st frames, Max7219.new.clear_display 0 = .ok (st, frames) ∧
      frames = Register.digits.map
        (fun r => oneFrame Max7219.new.device_count 0 r 0x00) ∧
      frames.length = 8 ∧
      ∀ k, k < 8 →
        ∃ r frame, Register.digits[k]? = some r ∧ frames[k]? = some frame ∧
          frame.length = Max7219.new.device_count * 2 ∧
          frame[0 * 2]? = some r.addr ∧ frame[0 * 2 + 1]? = some 0 ∧
          ∀ j, j < Max7219.new.device_count * 2 → j ≠ 0 * 2 → j ≠ 0 * 2 + 1 →
            frame[j]? = some 0 :=
  C6_clear_display Max7219.new 0 (by decide) (by decide)

/-- C7: `init` transmits, in this fixed order and nothing else: the
power-on broadcast, the display-test-off broadcast, the scan-limit
broadcast carrying `NUM_DIGITS - 1` (the full digit count 8, as the chip's
zero-based byte), the decode-mode broadcast carrying `NoDecode`, and then
the eight clear-all broadcasts, one per digit register in order. -/
theorem C7_init_sequence (m : Max7219) :
    ∃ st, m.init = .ok (st,
      allFrame m.device_count .Shutdown 0x01 ::
      allFrame m.device_count .DisplayTest 0x00 ::
      allFrame m.device_count .ScanLimit (NUM_DIGITS - 1) ::
      allFrame m.device_count .DecodeMode DecodeMode.NoDecode.value ::
      Register.digits.map (fun r => allFrame m.device_count r 0x00)) := by
  have hguard : ¬¬(1 ≤ NUM_DIGITS ∧ NUM_DIGITS ≤ 8) := by decide
  obtain ⟨st, hst, _⟩ := clearAllLoop_ok Register.digits
    (Max7219.mk (allBuf m.device_count .DecodeMode DecodeMode.NoDecode.value) m.device_count)
  refine ⟨st, ?_⟩
  simp only [Max7219.init, Max7219.power_on, Max7219.test_all,
    Max7219.set_scan_limit_all, Max7219.set_decode_mode_all, Max7219.clear_all,
    broadcast_eq, if_neg hguard, Bool.false_eq_true, if_false, hst,
    List.singleton_append, List.cons_append, List.nil_append]

/-- C9: every broadcast operation — power on/off all, test-mode all,
scan-limit all, decode-mode all, intensity all, clear all — is idempotent
with respect to the bus output: its transmitted frames do not depend on
the prior buffer contents, and repeating the call on the resulting state
transmits an identical frame sequence. -/
theorem C9_broadcast_idempotent (e : Bool) (mode : DecodeMode) (sl v : Nat) :
    broadcastIdem Max7219.power_on ∧
    broadcastIdem Max7219.power_off ∧
    broadcastIdem (fun m => m.test_all e) ∧
    broadcastIdem (fun m => m.set_scan_limit_all sl) ∧
    broadcastIdem (fun m => m.set_decode_mode_all mode) ∧
    broadcastIdem (fun m => m.set_intensity_all v) ∧
    broadcastIdem Max7219.clear_all := by
  refine ⟨?_, ?_, ?_, ?_, ?_, ?_, ?_⟩
  · exact broadcastIdem_of_frames _ (fun dc => [allFrame dc .Shutdown 0x01])
      (fun m => ⟨_, broadcast_eq m _ _, rfl⟩)
  · exact broadcastIdem_of_frames _ (fun dc => [allFrame dc .Shutdown 0x00])
      (fun m => ⟨_, broadcast_eq m _ _, rfl⟩)
  · exact broadcastIdem_of_frames _
      (fun dc => [allFrame dc .DisplayTest (if e then 0x01 else 0x00)])
      (fun m => ⟨_, broadcast_eq m _ _, rfl⟩)
  · by_cases hv : 1 ≤ sl ∧ sl ≤ 8
    · refine broadcastIdem_of_frames _ (fun dc => [allFrame dc .ScanLimit (sl - 1)])
        (fun m => ⟨{ m with buffer := allBuf m.device_count .ScanLimit (sl - 1) }, ?_, rfl⟩)
      rw [Max7219.set_scan_limit_all, if_neg (not_not_intro hv)]
      exact broadcast_eq m _ _
    · refine broadcastIdem_error _ (fun m => ⟨.InvalidScanLimit, ?_⟩)
      rw [Max7219.set_scan_limit_all, if_pos hv]
  · exact broadcastIdem_of_frames _ (fun dc => [allFrame dc .DecodeMode mode.value])
      (fun m => ⟨_, broadcast_eq m _ _, rfl⟩)
  · by_cases hv : v > 0x0F
    · refine broadcastIdem_error _ (fun m => ⟨.InvalidIntensity, ?_⟩)
      rw [Max7219.set_intensity_all, if_pos hv]
    · refine broadcastIdem_of_frames _ (fun dc => [allFrame dc .Intensity v])
        (fun m => ⟨{ m with buffer := allBuf m.device_count .Intensity v }, ?_, rfl⟩)
      rw [Max7219.set_intensity_all, if_neg hv]
      exact broadcast_eq m _ _
  · refine broadcastIdem_of_frames _
      (fun dc => Register.digits.map (fun r => allFrame dc r 0x00))
      (fun m => ?_)
    obtain ⟨st, hst, hdc⟩ := clearAllLoop_ok Register.digits m
    exact ⟨st, hst, hdc⟩

/-- Witness for C9: two successive `power_on` broadcasts on a fresh
driver transmit identical frames, for any interposed buffer contents. -/
theorem C9_witness :
    ∃ m1 fs1, Max7219.new.power_on = .ok (m1, fs1) ∧
      (∀ b, ∃ m', Max7219.power_on { Max7219.new with buffer := b } = .ok (m', fs1)) ∧
      ∃ m2, m1.power_on = .ok (m2, fs1) := by
  have hp : Max7219.new.power_on =
      .ok (Max7219.mk (allBuf 1 .Shutdown 0x01) 1, [allFrame 1 .Shutdown 0x01]) := rfl
  obtain ⟨hb, htwice⟩ :=
    (C9_broadcast_idempotent true DecodeMode.NoDecode 8 0).1 Max7219.new _ _ hp
  exact ⟨_, _, hp, hb, htwice⟩

/-- C10: every driver state reachable through the public operations keeps
`device_count ≤ MAX_DISPLAYS` and a transmit buffer of the fixed capacity
`MAX_DISPLAYS * 2`; consequently both byte offsets touched by
`write_device_register` for a valid index, and those touched by
`write_all_registers` for an operation list of at most `device_count`
entries, lie within the buffer capacity, and the transmitted slice of
`device_count * 2` bytes is in bounds. -/
theorem C10_reachable_invariant (m : Max7219) (h : Reachable m) :
    m.device_count ≤ MAX_DISPLAYS ∧
    m.buffer.length = MAX_DISPLAYS * 2 ∧
    m.device_count * 2 ≤ m.buffer.length ∧
    (∀ i, i < m.device_count → i * 2 + 1 < MAX_DISPLAYS * 2) ∧
    (∀ ops : List (Register × Nat), ops.length ≤ m.device_count →
      ∀ k, k < ops.length → k * 2 + 1 < MAX_DISPLAYS * 2) := by
  obtain ⟨h1, h2⟩ := reachable_good h
  exact ⟨h1, h2, by omega, fun i hi => by omega, fun ops hops k hk => by omega⟩

/-- Witness for C10: the freshly constructed driver is reachable and
satisfies all bounds. -/
theorem C10_witness :
    Max7219.new.device_count ≤ MAX_DISPLAYS ∧
    Max7219.new.buffer.length = MAX_DISPLAYS * 2 ∧
    Max7219.new.device_count * 2 ≤ Max7219.new.buffer.length ∧
    (∀ i, i < Max7219.new.device_count → i * 2 + 1 < MAX_DISPLAYS * 2) ∧
    (∀ ops : List (Register × Nat), ops.length ≤ Max7219.new.device_count →
      ∀ k, k < ops.length → k * 2 + 1 < MAX_DISPLAYS * 2) :=
  C10_reachable_invariant Max7219.new Reachable.base

end Max7219Spec
